import Mathlib

/-!
# NeuroEvolution Bird — verification of the simulation/evolution engine

Shallow embedding of the engine (`GameEngine`, `src` game-engine module) and
the neural network (`src/services/NeuralNetwork.js`).

Modelling conventions:
* JavaScript numbers are modelled as exact rationals (`ℚ`) for all game and
  genome state; the transcendental activation functions (`tanh`, `exp`) of
  `predict` are modelled over `ℝ` with genome parameters coerced.
* `undefined`-able object fields (`pipe.gapSize`, the challenge-mode timers)
  are modelled as `Option ℚ`; the JavaScript `x || d` fallback (which treats
  the falsy value `0` like `undefined`) is modelled by `jsOr`.
* Every call to `Math.random()` is an input: each stochastic operation takes
  its uniform draws (values in `[0,1)`) as explicit oracle arguments.
  `randomGaussian()` (Box–Muller) is likewise an oracle input, since no claim
  depends on the distribution of the perturbations.
* Random string ids and the `entity.brain` visualization snapshot are omitted:
  no algorithmic behaviour reads them.
-/

namespace NeuroBird

/-! ## Constants (`constants.js`) -/

def GAME_WIDTH : ℚ := 800
def GAME_HEIGHT : ℚ := 600
def GRAVITY : ℚ := 6/10
def LIFT : ℚ := -10
def VELOCITY_LIMIT : ℚ := 10
def MAX_PIPE_VERTICAL_SPEED : ℚ := 8
def PIPE_SPEED : ℚ := 3
def PIPE_SPAWN_RATE : ℕ := 100
def PIPE_GAP : ℚ := 150
def PIPE_WIDTH : ℚ := 60
def POPULATION_SIZE : ℕ := 50
def MUTATION_RATE : ℚ := 1/10
def MUTATION_AMOUNT : ℚ := 1/10
def INPUT_NODES : ℕ := 4
def HIDDEN_NODES : ℕ := 6
def OUTPUT_NODES : ℕ := 1

/-- JavaScript `o || d` on an optional number: `undefined` and the falsy
value `0` both fall back to the default. -/
def jsOr (o : Option ℚ) (d : ℚ) : ℚ :=
  match o with
  | none => d
  | some x => if x = 0 then d else x

/-! ## NeuralNetwork (`src/services/NeuralNetwork.js`) -/

/-- The genome: fixed-shape feedforward network.  Weight matrices and bias
vectors hold the (rational-valued) doubles; the three `last*` fields are the
introspection cache written by `predict`. -/
structure NeuralNetwork where
  inputNodes : ℕ
  hiddenNodes : ℕ
  outputNodes : ℕ
  weightsIH : List (List ℚ)
  weightsHO : List (List ℚ)
  biasH : List ℚ
  biasO : List ℚ
  lastInputs : List ℝ
  lastHidden : List ℝ
  lastOutputs : List ℝ

/-- `sigmoid(x) = 1 / (1 + e^(-x))`. -/
noncomputable def sigmoid (x : ℝ) : ℝ := 1 / (1 + Real.exp (-x))

/-- Hidden pre-activation for hidden unit `i`:
`Σ_j input[j]·W_ih[j][i] + b_h[i]` (the loop body of `predict`). -/
noncomputable def hiddenSum (n : NeuralNetwork) (input : List ℝ) (i : ℕ) : ℝ :=
  (∑ j ∈ Finset.range n.inputNodes,
      input.getD j 0 * ((n.weightsIH.getD j []).getD i 0 : ℝ)) +
    (n.biasH.getD i 0 : ℝ)

/-- Output pre-activation for output unit `i`:
`Σ_j hidden[j]·W_ho[j][i] + b_o[i]`. -/
noncomputable def outputSum (n : NeuralNetwork) (hidden : List ℝ) (i : ℕ) : ℝ :=
  (∑ j ∈ Finset.range n.hiddenNodes,
      hidden.getD j 0 * ((n.weightsHO.getD j []).getD i 0 : ℝ)) +
    (n.biasO.getD i 0 : ℝ)

/-- `predict`: forward propagation.  Returns the network with its
introspection cache updated, paired with the output vector.  The weight and
bias fields are untouched. -/
noncomputable def predictS (n : NeuralNetwork) (input : List ℝ) :
    NeuralNetwork × List ℝ :=
  let hidden := (List.range n.hiddenNodes).map fun i => Real.tanh (hiddenSum n input i)
  let output := (List.range n.outputNodes).map fun i => sigmoid (outputSum n hidden i)
  ({ n with lastInputs := input, lastHidden := hidden, lastOutputs := output },
   output)

/-- `copy()`: a fresh network with element-wise equal parameters.  The
constructor run inside `copy` initializes the introspection cache to empty
lists (the randomly drawn constructor weights are immediately overwritten). -/
def NeuralNetwork.copy (n : NeuralNetwork) : NeuralNetwork :=
  { inputNodes := n.inputNodes, hiddenNodes := n.hiddenNodes,
    outputNodes := n.outputNodes,
    weightsIH := n.weightsIH, weightsHO := n.weightsHO,
    biasH := n.biasH, biasO := n.biasO,
    lastInputs := [], lastHidden := [], lastOutputs := [] }

/-- Oracle draws consumed by one `mutate()` call: for each parameter position,
the uniform used against `MUTATION_RATE` and the value of `randomGaussian()`. -/
structure MutRand where
  uIH : ℕ → ℕ → ℚ
  gIH : ℕ → ℕ → ℚ
  uHO : ℕ → ℕ → ℚ
  gHO : ℕ → ℕ → ℚ
  uBH : ℕ → ℚ
  gBH : ℕ → ℚ
  uBO : ℕ → ℚ
  gBO : ℕ → ℚ

/-- `mutateValue` from `mutate()`: with probability `MUTATION_RATE` add the
Gaussian draw scaled by `MUTATION_AMOUNT`. -/
def mutateValue (u g val : ℚ) : ℚ :=
  if u < MUTATION_RATE then val + g * MUTATION_AMOUNT else val

/-- Index-aware map over a list (loop counter made explicit). -/
def mapWithIdx (f : ℕ → α → β) : List α → ℕ → List β
  | [], _ => []
  | a :: as, i => f i a :: mapWithIdx f as (i + 1)

/-- `mutate()`: every weight and bias goes through `mutateValue` with its own
draws; the cache fields are not touched. -/
def NeuralNetwork.mutate (n : NeuralNetwork) (mr : MutRand) : NeuralNetwork :=
  { n with
    weightsIH := mapWithIdx (fun i row =>
      mapWithIdx (fun j v => mutateValue (mr.uIH i j) (mr.gIH i j) v) row 0) n.weightsIH 0
    weightsHO := mapWithIdx (fun i row =>
      mapWithIdx (fun j v => mutateValue (mr.uHO i j) (mr.gHO i j) v) row 0) n.weightsHO 0
    biasH := mapWithIdx (fun i v => mutateValue (mr.uBH i) (mr.gBH i) v) n.biasH 0
    biasO := mapWithIdx (fun i v => mutateValue (mr.uBO i) (mr.gBO i) v) n.biasO 0 }

/-! ## Game data model (`GameEngine`) -/

/-- One bird: the per-run entity fields paired with its network.
(`entity.id` and `entity.brain` are omitted — see the header.) -/
structure Bird where
  y : ℚ
  velocity : ℚ
  alive : Bool
  fitness : ℚ
  score : ℕ
  net : NeuralNetwork

/-- One pipe.  Challenge-mode fields are `undefined` (`none`) for pipes
spawned outside challenge mode or stripped by `setChallengeMode(false)`. -/
structure Pipe where
  x : ℚ
  topHeight : ℚ
  passed : Bool
  verticalVelocity : Option ℚ
  gapSize : Option ℚ
  targetGapSize : Option ℚ
  directionChangeTimer : Option ℚ
  gapChangeTimer : Option ℚ
  deriving DecidableEq

/-- The `GameEngine` state. -/
structure GameState where
  birds : List Bird
  pipes : List Pipe
  frameCount : ℕ
  score : ℕ
  generation : ℕ
  highScore : ℕ
  challengeModeEnabled : Bool
  pipeVerticalSpeed : ℚ

/-- `resetGame()`: clear pipes, frame counter and score, and put every bird
back into its fresh per-generation state.  Genomes are untouched. -/
def resetBird (b : Bird) : Bird :=
  { b with y := GAME_HEIGHT / 2, velocity := 0, alive := true,
           score := 0, fitness := 0 }

def resetGame (s : GameState) : GameState :=
  { s with pipes := [], frameCount := 0, score := 0,
           birds := s.birds.map resetBird }

/-- Strip one pipe's dynamic state (`setChallengeMode(false)` loop body). -/
def stripPipe (p : Pipe) : Pipe :=
  { p with verticalVelocity := none, gapSize := none, targetGapSize := none,
           directionChangeTimer := none, gapChangeTimer := none }

/-- `setChallengeMode(enabled, speed)`. -/
def setChallengeMode (s : GameState) (enabled : Bool) (speed : ℚ) : GameState :=
  { s with challengeModeEnabled := enabled,
           pipeVerticalSpeed := max 1 (min MAX_PIPE_VERTICAL_SPEED speed),
           pipes := if enabled then s.pipes else s.pipes.map stripPipe }

/-- `initPopulation()`: `POPULATION_SIZE` fresh birds; the constructor-drawn
random networks are supplied by the oracle `mk`. -/
def initPopulation (mk : ℕ → NeuralNetwork) : List Bird :=
  (List.range POPULATION_SIZE).map fun i =>
    { y := GAME_HEIGHT / 2, velocity := 0, alive := true,
      fitness := 0, score := 0, net := mk i }

/-- The `GameEngine` constructor. -/
def initGame (mk : ℕ → NeuralNetwork) : GameState :=
  { birds := initPopulation mk, pipes := [], frameCount := 0, score := 0,
    generation := 1, highScore := 0, challengeModeEnabled := false,
    pipeVerticalSpeed := 1 }

/-! ## Selection and evolution (`pickOne`, `nextGeneration`) -/

/-- Descending-fitness order used by `nextGeneration`'s sort
(`(a, b) => b.entity.fitness - a.entity.fitness`). -/
def fitGE (a b : Bird) : Prop := b.fitness ≤ a.fitness

instance : DecidableRel fitGE := fun a b => inferInstanceAs (Decidable (b.fitness ≤ a.fitness))

instance : IsTotal Bird fitGE := ⟨fun a b => le_total b.fitness a.fitness⟩

instance : IsTrans Bird fitGE := ⟨fun _ _ _ h h' => le_trans h' h⟩

/-- The fitness-descending sorted copy of the population. -/
def sortByFitnessDesc (l : List Bird) : List Bird := l.insertionSort fitGE

/-- `sumFitness` accumulation in `nextGeneration`. -/
def sumFitness (l : List Bird) : ℚ := l.foldl (fun acc b => acc + b.fitness) 0

/-- The `while (r > 0 && index < sortedList.length)` walk of `pickOne`,
returning the exit value of `index`. -/
def pickWalk : List ℚ → ℚ → ℕ
  | [], _ => 0
  | f :: rest, r => if 0 < r then pickWalk rest (r - f) + 1 else 0

/-- `index--; if (index < 0) index = 0;` after the walk. -/
def pickIndex (fits : List ℚ) (r : ℚ) : ℕ :=
  let i : ℤ := (pickWalk fits r : ℤ) - 1
  (if i < 0 then 0 else i).toNat

/-- `pickOne(sortedList, sumFitness)` with the value `r = u·sumFitness`
already computed. -/
def pickOne (l : List Bird) (r : ℚ) : Option Bird :=
  l.get? (pickIndex (l.map (·.fitness)) r)

/-- Oracle draws for one `nextGeneration` call: the roulette uniform and the
mutation draws for each non-elite slot. -/
structure GenRand where
  sel : ℕ → ℚ
  mutd : ℕ → MutRand

/-- A fresh entity around a (child or elite) network, as built in
`nextGeneration` (and identically re-applied by the closing `resetGame`). -/
def freshBird (net : NeuralNetwork) : Bird :=
  { y := GAME_HEIGHT / 2, velocity := 0, alive := true,
    fitness := 0, score := 0, net := net }

/-- `nextGeneration()`: elitism, roulette selection, mutation, wholesale
replacement, generation increment, `resetGame`.  On an empty population the
source would throw (`sortedBirds[0]` is `undefined`); we return the state
unchanged and condition every theorem on a nonempty population. -/
def nextGeneration (s : GameState) (gr : GenRand) : GameState :=
  let sumF := sumFitness s.birds
  match sortByFitnessDesc s.birds with
  | [] => s
  | champion :: _ =>
    let sorted := sortByFitnessDesc s.birds
    let elite : Bird := freshBird champion.net.copy
    let children : List Bird := (List.range (POPULATION_SIZE - 1)).map fun k =>
      let parent := (pickOne sorted (gr.sel k * sumF)).getD champion
      freshBird ((parent.net.copy).mutate (gr.mutd k))
    resetGame { s with birds := elite :: children,
                       generation := s.generation + 1 }

/-! ## The tick (`update()`) -/

/-- `Math.sign`. -/
def qsign (x : ℚ) : ℚ := if 0 < x then 1 else if x < 0 then -1 else 0

/-- Oracle draws one pipe may consume during one tick's challenge update:
the direction-timer reset draw, the gap-change magnitude and sign draws, and
the gap-timer reset draw. -/
structure PipeRand where
  dirT : ℚ
  mag : ℚ
  sign : ℚ
  gapT : ℚ

/-- Direction-change logic: decrement the countdown; once it is spent, flip
the vertical direction and re-randomize the countdown to `60 + u·120`. -/
def dirStep (pr : PipeRand) (vv0 : ℚ) : Option ℚ → ℚ × Option ℚ
  | none => (vv0, none)
  | some t =>
    let t1 := t - 1
    if t1 ≤ 0 then (vv0 * (-1), some (60 + pr.dirT * 120)) else (vv0, some t1)

/-- Gradual gap-size transition: while more than `0.5` away from the target,
step `1.5` towards it and clamp to `[100, 250]`; otherwise snap to the
target. -/
def gapTransition (currentGap targetGap : ℚ) : ℚ :=
  if 1/2 < |currentGap - targetGap| then
    let gapDiff := targetGap - currentGap
    let change := qsign gapDiff * min |gapDiff| (3/2)
    max 100 (min 250 (currentGap + change))
  else targetGap

/-- Gap-size change logic: decrement the countdown; once it is spent, pick a
new target gap `currentGap ± (u·20 + 10)` clamped to `[100, 250]` and
re-randomize the countdown to `30 + u·60`. -/
def gapEvent (pr : PipeRand) (currentGap : ℚ) (tgs : Option ℚ) :
    Option ℚ → Option ℚ × Option ℚ
  | none => (tgs, none)
  | some t =>
    let t1 := t - 1
    if t1 ≤ 0 then
      let gapChange := (pr.mag * 20 + 10) * (if 1/2 < pr.sign then 1 else -1)
      (some (max 100 (min 250 (currentGap + gapChange))),
       some (30 + pr.gapT * 60))
    else (tgs, some t1)

/-- The per-pipe body of the update loop: horizontal scroll, then — in
challenge mode, for pipes carrying dynamic state — direction-change logic,
gradual gap transition, gap-change logic, and clamped vertical movement. -/
def movePipe (challengeOn : Bool) (pvs : ℚ) (pr : PipeRand) (p : Pipe) : Pipe :=
  let p1 := { p with x := p.x - PIPE_SPEED }
  if challengeOn ∧ p1.verticalVelocity ≠ none then
    let dir := dirStep pr (p1.verticalVelocity.getD 0) p1.directionChangeTimer
    let currentGap := jsOr p1.gapSize PIPE_GAP
    let targetGap := match p1.targetGapSize with | some t => t | none => currentGap
    let gapSize1 := gapTransition currentGap targetGap
    let gapEvt := gapEvent pr currentGap p1.targetGapSize p1.gapChangeTimer
    -- vertical movement with speed capping, then screen-bounds clamp
    let cappedSpeed := min pvs MAX_PIPE_VERTICAL_SPEED
    let top1 := p1.topHeight + dir.1 * cappedSpeed
    let updatedGap := jsOr (some gapSize1) PIPE_GAP
    let top2 := max 50 (min (GAME_HEIGHT - updatedGap - 50) top1)
    { p1 with verticalVelocity := some dir.1, directionChangeTimer := dir.2,
              gapSize := some gapSize1, targetGapSize := gapEvt.1,
              gapChangeTimer := gapEvt.2, topHeight := top2 }
  else p1

/-- Pipe spawning (the `frameCount % PIPE_SPAWN_RATE === 0` body). -/
def spawnPipe (challengeOn : Bool) (uTop uDir uDirT uGapT : ℚ) : Pipe :=
  let topHeight := uTop * (GAME_HEIGHT - PIPE_GAP - 100) + 50
  if challengeOn then
    { x := GAME_WIDTH, topHeight := topHeight, passed := false,
      verticalVelocity := some (if 1/2 < uDir then 1 else -1),
      gapSize := some PIPE_GAP, targetGapSize := some PIPE_GAP,
      directionChangeTimer := some (60 + uDirT * 120),
      gapChangeTimer := some (30 + uGapT * 60) }
  else
    { x := GAME_WIDTH, topHeight := topHeight, passed := false,
      verticalVelocity := none, gapSize := none, targetGapSize := none,
      directionChangeTimer := none, gapChangeTimer := none }

/-- The update loop over the pipe array with its per-pipe oracle (the source
iterates from the end; draws are indexed per pipe, so order is immaterial). -/
def movePipes (challengeOn : Bool) (pvs : ℚ) (prs : ℕ → PipeRand) :
    List Pipe → ℕ → List Pipe
  | [], _ => []
  | p :: rest, i =>
    movePipe challengeOn pvs (prs i) p :: movePipes challengeOn pvs prs rest (i + 1)

/-- `pipes.find(p => p.x + PIPE_WIDTH > 50)`: first (earliest-spawned) pipe
whose trailing edge is still ahead of the bird's x. -/
def closestOf (pipes : List Pipe) : Option Pipe :=
  pipes.find? fun p => decide (50 < p.x + PIPE_WIDTH)

/-- The 4-element normalized observation built for a bird at (post-physics)
height `y` and velocity `v`. -/
def obsOf (cp : Option Pipe) (y v : ℚ) : List ℚ :=
  let pipeX := match cp with | some p => p.x | none => GAME_WIDTH
  let currentGap := jsOr (cp.bind Pipe.gapSize) PIPE_GAP
  let pipeGapY := match cp with
    | some p => p.topHeight + currentGap / 2
    | none => GAME_HEIGHT / 2
  [y / GAME_HEIGHT, pipeX / GAME_WIDTH, pipeGapY / GAME_HEIGHT,
   (v + VELOCITY_LIMIT) / (VELOCITY_LIMIT * 2)]

/-- `checkPipeCollision(bird, pipe)` at bird height `y`. -/
def checkPipeCollision (y : ℚ) (cp : Option Pipe) : Bool :=
  match cp with
  | none => false
  | some p =>
    let currentGap := jsOr p.gapSize PIPE_GAP
    if p.x < 50 + 24 ∧ 50 < p.x + PIPE_WIDTH then
      decide (y < p.topHeight) || decide (p.topHeight + currentGap < y + 24)
    else false

open Classical in
/-- Per-bird body of the update loop: physics, fitness accrual, observation,
inference, flap (`jump` overwrites the velocity with `LIFT`), collision. -/
noncomputable def updateBird (cp : Option Pipe) (b : Bird) : Bird :=
  if b.alive = false then b
  else
    let v1 := max (min ((b.velocity + GRAVITY) * (9/10)) VELOCITY_LIMIT) (-VELOCITY_LIMIT)
    let y1 := b.y + v1
    let pr := predictS b.net ((obsOf cp y1 v1).map fun q => (q : ℝ))
    let v2 := if (1/2 : ℝ) < pr.2.getD 0 0 then LIFT else v1
    let dead := decide (GAME_HEIGHT - 10 < y1 + 24) || decide (y1 < 0) ||
      checkPipeCollision y1 cp
    { y := y1, velocity := v2, alive := !dead, fitness := b.fitness + 1,
      score := b.score, net := pr.1 }

/-- All the draws one `update()` call may consume. -/
structure TickRand where
  spawnTop : ℚ
  spawnDir : ℚ
  spawnDirT : ℚ
  spawnGapT : ℚ
  pipeR : ℕ → PipeRand
  gen : GenRand

/-- One full `update()` tick. -/
noncomputable def update (s : GameState) (ρ : TickRand) : GameState :=
  -- 1. manage pipes: spawn, then move/challenge-update/remove
  let pipes0 := if s.frameCount % PIPE_SPAWN_RATE = 0 then
      s.pipes ++ [spawnPipe s.challengeModeEnabled ρ.spawnTop ρ.spawnDir
        ρ.spawnDirT ρ.spawnGapT]
    else s.pipes
  let pipes1 := (movePipes s.challengeModeEnabled s.pipeVerticalSpeed
      ρ.pipeR pipes0 0).filter fun p => !decide (p.x + PIPE_WIDTH < 0)
  let cp := closestOf pipes1
  -- 2. update birds (`anyAlive` reflects each bird's flag at loop entry,
  -- i.e. the pre-tick population)
  let anyAlive := s.birds.any (·.alive)
  let birds1 := s.birds.map (updateBird cp)
  -- 3. score tracking: each newly passed pipe bumps the score and every
  -- alive bird's counter
  let np := (pipes1.filter fun p => decide (p.x + PIPE_WIDTH < 50) && !p.passed).length
  let pipes2 := pipes1.map fun p =>
    if p.x + PIPE_WIDTH < 50 ∧ p.passed = false then { p with passed := true } else p
  let score1 := s.score + np
  let birds2 := birds1.map fun b =>
    if b.alive then { b with score := b.score + np } else b
  -- 4. high score, frame counter
  let hs1 := if s.highScore < score1 then score1 else s.highScore
  let s1 := { s with
    pipes := pipes2, birds := birds2, score := score1,
    highScore := hs1, frameCount := s.frameCount + 1 }
  -- 5. generation transition
  if anyAlive then s1 else nextGeneration s1 ρ.gen

/-- `n` back-to-back ticks (tick `k` consumes oracle `ρs k`). -/
noncomputable def updates (s : GameState) (ρs : ℕ → TickRand) : ℕ → GameState
  | 0 => s
  | n + 1 => update (updates s ρs n) (ρs n)

/-! ## The on-screen obstacle invariant (spec §3 "Obstacle" invariants) -/

/-- Well-formedness of one pipe: gap and target gap (when defined) clamped to
`[100, 250]`; top height at least `50`, at most `450` (the weakest clamp
bound, `worldHeight - 100 - 50`), and — whenever the gap is defined — small
enough that the full gap plus the 50px bottom margin stays on screen. -/
def PipeWF (p : Pipe) : Prop :=
  (∀ g ∈ p.gapSize, 100 ≤ g ∧ g ≤ 250) ∧
  (∀ t ∈ p.targetGapSize, 100 ≤ t ∧ t ≤ 250) ∧
  50 ≤ p.topHeight ∧ p.topHeight ≤ 450 ∧
  (∀ g ∈ p.gapSize, p.topHeight ≤ GAME_HEIGHT - g - 50)

/-- All pipes of a state are well-formed. -/
def PipesWF (s : GameState) : Prop := ∀ p ∈ s.pipes, PipeWF p

/-! ## Concrete fixtures (used by witnesses and counterexamples) -/

/-- An all-zero 4-6-1 network. -/
def net0 : NeuralNetwork :=
  { inputNodes := INPUT_NODES, hiddenNodes := HIDDEN_NODES,
    outputNodes := OUTPUT_NODES,
    weightsIH := List.replicate 4 (List.replicate 6 0),
    weightsHO := List.replicate 6 (List.replicate 1 0),
    biasH := List.replicate 6 0, biasO := List.replicate 1 0,
    lastInputs := [], lastHidden := [], lastOutputs := [] }

/-- A live bird in its fresh state. -/
def birdAlive : Bird :=
  { y := GAME_HEIGHT / 2, velocity := 0, alive := true, fitness := 0,
    score := 0, net := net0 }

/-- A dead bird with some accumulated state. -/
def birdDead : Bird :=
  { y := 100, velocity := 2, alive := false, fitness := 7, score := 1,
    net := net0 }

/-- A full-size population of live birds, no pipes. -/
def stateFull : GameState :=
  { birds := List.replicate POPULATION_SIZE birdAlive, pipes := [],
    frameCount := 0, score := 0, generation := 1, highScore := 0,
    challengeModeEnabled := false, pipeVerticalSpeed := 1 }

/-- A two-bird state with one live and one dead bird. -/
def stateMixed : GameState :=
  { birds := [birdAlive, birdDead], pipes := [], frameCount := 0, score := 0,
    generation := 1, highScore := 0, challengeModeEnabled := false,
    pipeVerticalSpeed := 1 }

/-- Degenerate mutation draws (uniform `1`: nothing mutates; Gaussian `0`). -/
def mr0 : MutRand :=
  { uIH := fun _ _ => 1, gIH := fun _ _ => 0, uHO := fun _ _ => 1,
    gHO := fun _ _ => 0, uBH := fun _ => 1, gBH := fun _ => 0,
    uBO := fun _ => 1, gBO := fun _ => 0 }

def gr0 : GenRand := { sel := fun _ => 0, mutd := fun _ => mr0 }

def pr0 : PipeRand := { dirT := 0, mag := 0, sign := 0, gapT := 0 }

def tr0 : TickRand :=
  { spawnTop := 0, spawnDir := 0, spawnDirT := 0, spawnGapT := 0,
    pipeR := fun _ => pr0, gen := gr0 }

/-- A challenge-mode pipe whose direction-change countdown is about to expire. -/
def pipeC8 : Pipe :=
  { x := 700, topHeight := 200, passed := false, verticalVelocity := some 1,
    gapSize := some 150, targetGapSize := some 150,
    directionChangeTimer := some 1, gapChangeTimer := some 50 }

/-- Draws for the C8 counterexample: the direction-timer reset uniform is
`1/7`, producing the non-integer timer `60 + 120/7 = 540/7`. -/
def prC8 : PipeRand := { dirT := 1/7, mag := 0, sign := 0, gapT := 0 }

/-- A plain pipe ahead of the bird (used to exercise the observation). -/
def pipeC7 : Pipe :=
  { x := 100, topHeight := 200, passed := false, verticalVelocity := none,
    gapSize := none, targetGapSize := none, directionChangeTimer := none,
    gapChangeTimer := none }

/-! ## Helper lemmas -/

lemma sortByFitnessDesc_perm (l : List Bird) : (sortByFitnessDesc l).Perm l :=
  List.perm_insertionSort _ l

lemma sortByFitnessDesc_sorted (l : List Bird) :
    List.Sorted fitGE (sortByFitnessDesc l) :=
  List.sorted_insertionSort _ l

lemma sortByFitnessDesc_eq_nil {l : List Bird} :
    sortByFitnessDesc l = [] ↔ l = [] := by
  constructor
  · intro h
    have hp := sortByFitnessDesc_perm l
    rw [h] at hp
    exact hp.symm.eq_nil
  · intro h
    subst h
    rfl

/-- The head of the fitness-descending sort is a member of the population with
maximal fitness. -/
lemma champion_spec {l : List Bird} {c : Bird} {rest : List Bird}
    (h : sortByFitnessDesc l = c :: rest) :
    c ∈ l ∧ ∀ b ∈ l, b.fitness ≤ c.fitness := by
  have hperm := sortByFitnessDesc_perm l
  rw [h] at hperm
  refine ⟨hperm.mem_iff.mp (List.mem_cons_self c rest), fun b hb => ?_⟩
  rcases List.mem_cons.mp (hperm.mem_iff.mpr hb) with rfl | hbr
  · exact le_refl _
  · have hs := sortByFitnessDesc_sorted l
    rw [h] at hs
    exact List.rel_of_sorted_cons hs b hbr

lemma pickWalk_le_length (l : List ℚ) (r : ℚ) : pickWalk l r ≤ l.length := by
  induction l generalizing r with
  | nil => simp [pickWalk]
  | cons f rest ih =>
    simp only [pickWalk, List.length_cons]
    split
    · exact Nat.succ_le_succ (ih _)
    · exact Nat.zero_le _

lemma pickWalk_of_nonpos {r : ℚ} (h : ¬ 0 < r) (l : List ℚ) :
    pickWalk l r = 0 := by
  cases l <;> simp [pickWalk, h]

lemma pickIndex_lt_length {fits : List ℚ} (h : fits ≠ []) (r : ℚ) :
    pickIndex fits r < fits.length := by
  have hw := pickWalk_le_length fits r
  have hlen : 0 < fits.length := List.length_pos.mpr h
  unfold pickIndex
  simp only []
  split <;> omega

lemma pickIndex_zero (fits : List ℚ) : pickIndex fits 0 = 0 := by
  unfold pickIndex
  rw [pickWalk_of_nonpos (by norm_num) fits]
  rfl

lemma sigmoid_pos (x : ℝ) : 0 < sigmoid x := by
  unfold sigmoid
  positivity

lemma sigmoid_lt_one (x : ℝ) : sigmoid x < 1 := by
  unfold sigmoid
  rw [div_lt_one (by positivity)]
  linarith [Real.exp_pos (-x)]

lemma tanh_lt_one (x : ℝ) : Real.tanh x < 1 := by
  rw [Real.tanh_eq_sinh_div_cosh, div_lt_one (Real.cosh_pos x)]
  exact Real.sinh_lt_cosh x

lemma neg_one_lt_tanh (x : ℝ) : -1 < Real.tanh x := by
  rw [Real.tanh_eq_sinh_div_cosh, lt_div_iff₀ (Real.cosh_pos x)]
  have h := Real.sinh_lt_cosh (-x)
  rw [Real.sinh_neg, Real.cosh_neg] at h
  linarith

lemma getD_map_range {α : Type} {f : ℕ → α} {j m : ℕ} (h : j < m) (d : α) :
    ((List.range m).map f).getD j d = f j := by
  simp [List.getD_eq_getElem?_getD, List.getElem?_map, List.getElem?_range, h]

lemma resetBird_freshBird (n : NeuralNetwork) :
    resetBird (freshBird n) = freshBird n := rfl

/-- Unfolding of `nextGeneration` on a population whose sort is known. -/
lemma nextGeneration_birds {s : GameState} {gr : GenRand} {c : Bird}
    {rest : List Bird} (h : sortByFitnessDesc s.birds = c :: rest) :
    (nextGeneration s gr).birds =
      freshBird c.net.copy ::
        (List.range (POPULATION_SIZE - 1)).map fun k =>
          resetBird (freshBird
            ((((pickOne (c :: rest) (gr.sel k * sumFitness s.birds)).getD
                c).net.copy).mutate (gr.mutd k))) := by
  unfold nextGeneration
  rw [h]
  simp [resetGame, resetBird_freshBird]

lemma nextGeneration_length {s : GameState} (gr : GenRand)
    (h : s.birds ≠ []) :
    (nextGeneration s gr).birds.length = POPULATION_SIZE := by
  obtain ⟨c, rest, hc⟩ : ∃ c rest, sortByFitnessDesc s.birds = c :: rest := by
    cases hsort : sortByFitnessDesc s.birds with
    | nil => exact absurd (sortByFitnessDesc_eq_nil.mp hsort) h
    | cons c rest => exact ⟨c, rest, rfl⟩
  rw [nextGeneration_birds hc]
  simp [POPULATION_SIZE]

lemma update_length (s : GameState) (ρ : TickRand)
    (h : s.birds.length = POPULATION_SIZE) :
    (update s ρ).birds.length = POPULATION_SIZE := by
  simp only [update]
  split
  · simp [h]
  · apply nextGeneration_length
    apply List.ne_nil_of_length_pos
    simp [h, POPULATION_SIZE]

/-- **C1**: at every generation transition, the first member of the new
population carries an unmutated value-equal clone of the genome of a
top-fitness agent of the outgoing population, and fresh per-generation state:
fitness 0, pipes-passed 0, alive, `y = worldHeight/2`, velocity 0. -/
theorem C1_elitism (s : GameState) (gr : GenRand) (h : s.birds ≠ []) :
    ∃ champ hd,
      champ ∈ s.birds ∧ (∀ b ∈ s.birds, b.fitness ≤ champ.fitness) ∧
      (nextGeneration s gr).birds.head? = some hd ∧
      hd.net.weightsIH = champ.net.weightsIH ∧
      hd.net.weightsHO = champ.net.weightsHO ∧
      hd.net.biasH = champ.net.biasH ∧
      hd.net.biasO = champ.net.biasO ∧
      hd.fitness = 0 ∧ hd.score = 0 ∧ hd.alive = true ∧
      hd.y = GAME_HEIGHT / 2 ∧ hd.velocity = 0 := by
  obtain ⟨c, rest, hc⟩ : ∃ c rest, sortByFitnessDesc s.birds = c :: rest := by
    cases hsort : sortByFitnessDesc s.birds with
    | nil => exact absurd (sortByFitnessDesc_eq_nil.mp hsort) h
    | cons c rest => exact ⟨c, rest, rfl⟩
  obtain ⟨hmem, hmax⟩ := champion_spec hc
  refine ⟨c, freshBird c.net.copy, hmem, hmax, ?_,
    rfl, rfl, rfl, rfl, rfl, rfl, rfl, rfl, rfl⟩
  rw [nextGeneration_birds hc]
  rfl

/-- Witness for C1 at a concrete two-bird population. -/
theorem C1_elitism_witness :
    stateMixed.birds ≠ [] ∧
    (∃ champ hd,
      champ ∈ stateMixed.birds ∧
      (∀ b ∈ stateMixed.birds, b.fitness ≤ champ.fitness) ∧
      (nextGeneration stateMixed gr0).birds.head? = some hd ∧
      hd.net.weightsIH = champ.net.weightsIH ∧
      hd.net.weightsHO = champ.net.weightsHO ∧
      hd.net.biasH = champ.net.biasH ∧
      hd.net.biasO = champ.net.biasO ∧
      hd.fitness = 0 ∧ hd.score = 0 ∧ hd.alive = true ∧
      hd.y = GAME_HEIGHT / 2 ∧ hd.velocity = 0) :=
  ⟨by simp [stateMixed], C1_elitism stateMixed gr0 (by simp [stateMixed])⟩

/-- **C5**: the population always holds exactly `N = 50` agents — at
construction, across `resetGame`, across every evolution step, across every
tick, and hence across arbitrarily many back-to-back ticks. -/
theorem C5_population_size :
    POPULATION_SIZE = 50 ∧
    (∀ mk, (initGame mk).birds.length = POPULATION_SIZE) ∧
    (∀ s, (resetGame s).birds.length = s.birds.length) ∧
    (∀ s gr, s.birds ≠ [] →
      (nextGeneration s gr).birds.length = POPULATION_SIZE) ∧
    (∀ s ρ, s.birds.length = POPULATION_SIZE →
      (update s ρ).birds.length = POPULATION_SIZE) ∧
    (∀ s ρs, s.birds.length = POPULATION_SIZE →
      ∀ n, (updates s ρs n).birds.length = POPULATION_SIZE) := by
  refine ⟨rfl, fun mk => by simp [initGame, initPopulation],
    fun s => by simp [resetGame],
    fun s gr h => nextGeneration_length gr h,
    fun s ρ h => update_length s ρ h, fun s ρs h n => ?_⟩
  induction n with
  | zero => exact h
  | succ n ih => exact update_length _ _ ih

/-- Witness for C5: three ticks from a concrete full population. -/
theorem C5_population_size_witness :
    stateFull.birds.length = POPULATION_SIZE ∧
    (updates stateFull (fun _ => tr0) 3).birds.length = POPULATION_SIZE :=
  ⟨by simp [stateFull],
   C5_population_size.2.2.2.2.2 stateFull (fun _ => tr0)
     (by simp [stateFull]) 3⟩

/-- **C2**: each roulette draw uses `r = u·sumFitness` which lies in
`[0, sumFitness)` when the total is positive; the walk's resulting index is
always clamped into the valid range; and with `sumFitness = 0` every draw
deterministically selects the candidate at index 0. -/
theorem C2_roulette (l : List Bird) (u : ℚ) (hl : l ≠ [])
    (h0 : 0 ≤ u) (h1 : u < 1) :
    (0 < sumFitness l →
      0 ≤ u * sumFitness l ∧ u * sumFitness l < sumFitness l) ∧
    pickIndex (l.map (fun b => b.fitness)) (u * sumFitness l) < l.length ∧
    (sumFitness l = 0 → pickOne l (u * sumFitness l) = l.head?) := by
  refine ⟨fun hpos => ⟨mul_nonneg h0 hpos.le, ?_⟩, ?_, fun hz => ?_⟩
  · calc u * sumFitness l < 1 * sumFitness l := by
          exact mul_lt_mul_of_pos_right h1 hpos
      _ = sumFitness l := one_mul _
  · have hfit : l.map (fun b => b.fitness) ≠ [] := by
      simpa using hl
    simpa using pickIndex_lt_length hfit (u * sumFitness l)
  · rw [hz, mul_zero]
    unfold pickOne
    rw [pickIndex_zero]
    cases l with
    | nil => simp
    | cons b bs => simp

/-- Witness for C2 on a one-bird list with draw `u = 1/2`. -/
theorem C2_roulette_witness :
    ([birdAlive] : List Bird) ≠ [] ∧ (0 : ℚ) ≤ 1/2 ∧ (1/2 : ℚ) < 1 ∧
    ((0 < sumFitness [birdAlive] →
      0 ≤ (1/2 : ℚ) * sumFitness [birdAlive] ∧
      (1/2 : ℚ) * sumFitness [birdAlive] < sumFitness [birdAlive]) ∧
    pickIndex ([birdAlive].map (fun b => b.fitness))
      ((1/2 : ℚ) * sumFitness [birdAlive]) < ([birdAlive] : List Bird).length ∧
    (sumFitness [birdAlive] = 0 →
      pickOne [birdAlive] ((1/2 : ℚ) * sumFitness [birdAlive]) =
        ([birdAlive] : List Bird).head?)) :=
  ⟨by simp, by norm_num, by norm_num,
   C2_roulette [birdAlive] (1/2) (by simp) (by norm_num) (by norm_num)⟩

open Classical in
/-- **C3**: for every live agent on every tick, the physics update computes
`v1 = clamp((velocity + 0.6)·0.9, -10, 10)` and `y + v1`, fitness grows by
exactly 1, and the velocity is then overwritten with the flap impulse `-10`
exactly when the genome's output on the tick's observation exceeds `0.5`. -/
theorem C3_physics (cp : Option Pipe) (b : Bird) (h : b.alive = true) :
    (updateBird cp b).y =
      b.y + max (min ((b.velocity + GRAVITY) * (9/10)) VELOCITY_LIMIT)
        (-VELOCITY_LIMIT) ∧
    (updateBird cp b).fitness = b.fitness + 1 ∧
    (updateBird cp b).velocity =
      (if (1/2 : ℝ) <
          (predictS b.net ((obsOf cp
            (b.y + max (min ((b.velocity + GRAVITY) * (9/10)) VELOCITY_LIMIT)
              (-VELOCITY_LIMIT))
            (max (min ((b.velocity + GRAVITY) * (9/10)) VELOCITY_LIMIT)
              (-VELOCITY_LIMIT))).map fun q => (q : ℝ))).2.getD 0 0
        then LIFT
        else max (min ((b.velocity + GRAVITY) * (9/10)) VELOCITY_LIMIT)
          (-VELOCITY_LIMIT)) := by
  simp only [updateBird, h]
  exact ⟨rfl, rfl, rfl⟩

open Classical in
/-- Witness for C3 at a concrete live bird with no upcoming pipe. -/
theorem C3_physics_witness :
    birdAlive.alive = true ∧
    ((updateBird none birdAlive).y =
      birdAlive.y + max (min ((birdAlive.velocity + GRAVITY) * (9/10))
        VELOCITY_LIMIT) (-VELOCITY_LIMIT) ∧
    (updateBird none birdAlive).fitness = birdAlive.fitness + 1 ∧
    (updateBird none birdAlive).velocity =
      (if (1/2 : ℝ) <
          (predictS birdAlive.net ((obsOf none
            (birdAlive.y + max (min ((birdAlive.velocity + GRAVITY) * (9/10))
              VELOCITY_LIMIT) (-VELOCITY_LIMIT))
            (max (min ((birdAlive.velocity + GRAVITY) * (9/10)) VELOCITY_LIMIT)
              (-VELOCITY_LIMIT))).map fun q => (q : ℝ))).2.getD 0 0
        then LIFT
        else max (min ((birdAlive.velocity + GRAVITY) * (9/10)) VELOCITY_LIMIT)
          (-VELOCITY_LIMIT))) :=
  ⟨rfl, C3_physics none birdAlive rfl⟩

lemma updateBird_dead {cp : Option Pipe} {b : Bird} (h : b.alive = false) :
    updateBird cp b = b := by
  simp [updateBird, h]

/-- **C10**: on a tick where some agent starts alive (so no evolution step
runs), every agent that is dead at the tick's start is exactly unchanged. -/
theorem C10_dead_unchanged (s : GameState) (ρ : TickRand)
    (halive : ∃ b ∈ s.birds, b.alive = true)
    (i : ℕ) (b : Bird) (hb : s.birds[i]? = some b) (hdead : b.alive = false) :
    (update s ρ).birds[i]? = some b := by
  have hany : s.birds.any (fun b => b.alive) = true := by
    rcases halive with ⟨c, hc, hca⟩
    exact List.any_eq_true.mpr ⟨c, hc, hca⟩
  simp only [update, hany, if_true]
  simp [List.getElem?_map, hb, updateBird_dead hdead, hdead]

/-- Witness for C10 on the mixed two-bird state (index 1 is dead). -/
theorem C10_dead_unchanged_witness :
    (∃ b ∈ stateMixed.birds, b.alive = true) ∧
    stateMixed.birds[1]? = some birdDead ∧ birdDead.alive = false ∧
    (update stateMixed tr0).birds[1]? = some birdDead :=
  ⟨⟨birdAlive, by simp [stateMixed], rfl⟩, rfl, rfl,
   C10_dead_unchanged stateMixed tr0 ⟨birdAlive, by simp [stateMixed], rfl⟩
     1 birdDead rfl rfl⟩

lemma nextGeneration_highScore (s : GameState) (gr : GenRand) :
    (nextGeneration s gr).highScore = s.highScore := by
  unfold nextGeneration
  split
  · rfl
  · rfl

lemma nextGeneration_score (s : GameState) (gr : GenRand) :
    (nextGeneration s gr).score = 0 ∨ nextGeneration s gr = s := by
  unfold nextGeneration
  split
  · exact Or.inr rfl
  · exact Or.inl rfl

lemma left_le_ite_max (hs sc : ℕ) : hs ≤ if hs < sc then sc else hs := by
  split <;> omega

lemma right_le_ite_max (hs sc : ℕ) : sc ≤ if hs < sc then sc else hs := by
  split <;> omega

lemma update_highScore_mono (s : GameState) (ρ : TickRand) :
    s.highScore ≤ (update s ρ).highScore := by
  simp only [update]
  split
  · exact left_le_ite_max _ _
  · rw [nextGeneration_highScore]
    exact left_le_ite_max _ _

lemma update_score_le_highScore (s : GameState) (ρ : TickRand) :
    (update s ρ).score ≤ (update s ρ).highScore := by
  simp only [update]
  split
  · exact right_le_ite_max _ _
  · rcases nextGeneration_score _ ρ.gen with h | h
    · rw [h]
      exact Nat.zero_le _
    · rw [h]
      exact right_le_ite_max _ _

/-- **C9**: the all-time high score never decreases under any operation
(`update`, `resetGame`, `setChallengeMode`, evolution steps), and after every
tick the high score dominates the current per-generation score; that
invariant survives `resetGame` and `setChallengeMode`, and ticks in
arbitrarily long sequences keep the high score monotone. -/
theorem C9_highscore :
    (∀ s ρ, s.highScore ≤ (update s ρ).highScore) ∧
    (∀ s, (resetGame s).highScore = s.highScore) ∧
    (∀ s e sp, (setChallengeMode s e sp).highScore = s.highScore) ∧
    (∀ s gr, (nextGeneration s gr).highScore = s.highScore) ∧
    (∀ s ρ, (update s ρ).score ≤ (update s ρ).highScore) ∧
    (∀ s, s.score ≤ s.highScore →
      (resetGame s).score ≤ (resetGame s).highScore) ∧
    (∀ s e sp, s.score ≤ s.highScore →
      (setChallengeMode s e sp).score ≤ (setChallengeMode s e sp).highScore) ∧
    (∀ s ρs n, (updates s ρs n).highScore ≤ (updates s ρs (n + 1)).highScore) :=
  ⟨update_highScore_mono, fun _ => rfl, fun _ _ _ => rfl,
   nextGeneration_highScore, update_score_le_highScore,
   fun s _ => by simp [resetGame],
   fun _ _ _ h => h,
   fun _ _ _ => update_highScore_mono _ _⟩

/-- Witness for C9's conditional conjuncts at a concrete state. -/
theorem C9_highscore_witness :
    stateFull.score ≤ stateFull.highScore ∧
    (resetGame stateFull).score ≤ (resetGame stateFull).highScore ∧
    (setChallengeMode stateFull true 4).score ≤
      (setChallengeMode stateFull true 4).highScore :=
  ⟨by simp [stateFull],
   C9_highscore.2.2.2.2.2.1 stateFull (by simp [stateFull]),
   C9_highscore.2.2.2.2.2.2.1 stateFull true 4 (by simp [stateFull])⟩

lemma clamp_gap_mem (z : ℚ) :
    100 ≤ max 100 (min 250 z) ∧ max 100 (min 250 z) ≤ 250 :=
  ⟨le_max_left _ _, max_le (by norm_num) (min_le_left _ _)⟩

lemma jsOr_gap_mem {o : Option ℚ} (h : ∀ g ∈ o, 100 ≤ g ∧ g ≤ 250) :
    100 ≤ jsOr o PIPE_GAP ∧ jsOr o PIPE_GAP ≤ 250 := by
  cases o with
  | none => norm_num [jsOr, PIPE_GAP]
  | some g =>
    by_cases hg : g = 0
    · norm_num [jsOr, hg, PIPE_GAP]
    · simpa [jsOr, hg] using h g rfl

lemma gapTransition_mem {cg tg : ℚ} (htg : 100 ≤ tg ∧ tg ≤ 250) :
    100 ≤ gapTransition cg tg ∧ gapTransition cg tg ≤ 250 := by
  unfold gapTransition
  split
  · exact clamp_gap_mem _
  · exact htg

lemma gapEvent_target_mem {pr : PipeRand} {cg : ℚ} {tgs gct : Option ℚ}
    (ht : ∀ t ∈ tgs, 100 ≤ t ∧ t ≤ 250) :
    ∀ t ∈ (gapEvent pr cg tgs gct).1, 100 ≤ t ∧ t ≤ 250 := by
  cases gct with
  | none => exact ht
  | some t0 =>
    by_cases hle : t0 - 1 ≤ 0
    · simp only [gapEvent, if_pos hle]
      intro t htm
      rw [Option.mem_def, Option.some.injEq] at htm
      rw [← htm]
      exact clamp_gap_mem _
    · simp only [gapEvent, if_neg hle]
      exact ht

/-- The challenge-mode branch of the pipe update always produces a
well-formed pipe: the freshly assigned gap is in range, the target (when
defined) is in range, and the top height is clamped against the new gap. -/
lemma challenge_record_WF {x : ℚ} {pd : Bool} {vv : ℚ} {dct : Option ℚ}
    {g1 : ℚ} {tg1 : Option ℚ} {gct1 : Option ℚ} {top1 : ℚ}
    (hg1 : 100 ≤ g1 ∧ g1 ≤ 250) (ht1 : ∀ t ∈ tg1, 100 ≤ t ∧ t ≤ 250) :
    PipeWF { x := x,
             topHeight := max 50
               (min (GAME_HEIGHT - jsOr (some g1) PIPE_GAP - 50) top1),
             passed := pd, verticalVelocity := some vv, gapSize := some g1,
             targetGapSize := tg1, directionChangeTimer := dct,
             gapChangeTimer := gct1 } := by
  have hne : g1 ≠ 0 := by
    intro h
    rw [h] at hg1
    norm_num at hg1
  have hupd : jsOr (some g1) PIPE_GAP = g1 := by simp [jsOr, hne]
  refine ⟨?_, ht1, ?_, ?_, ?_⟩
  · intro g hgm
    rw [Option.mem_def, Option.some.injEq] at hgm
    rw [← hgm]
    exact hg1
  · exact le_max_left _ _
  · show max 50 (min (GAME_HEIGHT - jsOr (some g1) PIPE_GAP - 50) top1) ≤ 450
    rw [hupd]
    refine le_trans (max_le ?_ (min_le_left _ _)) ?_
    · rw [GAME_HEIGHT]
      linarith [hg1.2]
    · rw [GAME_HEIGHT]
      linarith [hg1.1]
  · intro g hgm
    rw [Option.mem_def, Option.some.injEq] at hgm
    rw [← hgm]
    show max 50 (min (GAME_HEIGHT - jsOr (some g1) PIPE_GAP - 50) top1) ≤
      GAME_HEIGHT - g1 - 50
    rw [hupd]
    refine max_le ?_ (min_le_left _ _)
    rw [GAME_HEIGHT]
    linarith [hg1.2]

lemma movePipe_WF (c : Bool) (pvs : ℚ) (pr : PipeRand) {p : Pipe}
    (hp : PipeWF p) : PipeWF (movePipe c pvs pr p) := by
  obtain ⟨hg, ht, h50, h450, hgt⟩ := hp
  simp only [movePipe]
  split
  case isFalse _ => exact ⟨hg, ht, h50, h450, hgt⟩
  case isTrue hcond =>
  have hcur := jsOr_gap_mem hg
  have htarget : 100 ≤ (match p.targetGapSize with
        | some t => t
        | none => jsOr p.gapSize PIPE_GAP) ∧
      (match p.targetGapSize with
        | some t => t
        | none => jsOr p.gapSize PIPE_GAP) ≤ 250 := by
    cases htgs : p.targetGapSize with
    | some t => exact ht t (Option.mem_def.mpr htgs)
    | none => exact hcur
  exact challenge_record_WF (gapTransition_mem htarget)
    (gapEvent_target_mem ht)

lemma stripPipe_WF {p : Pipe} (hp : PipeWF p) : PipeWF (stripPipe p) := by
  obtain ⟨_, _, h50, h450, _⟩ := hp
  exact ⟨by simp [stripPipe], by simp [stripPipe], h50, h450,
    by simp [stripPipe]⟩

lemma spawnPipe_WF (c : Bool) {uTop : ℚ} (h0 : 0 ≤ uTop) (h1 : uTop < 1)
    (uDir uDirT uGapT : ℚ) : PipeWF (spawnPipe c uTop uDir uDirT uGapT) := by
  have hnn : 0 ≤ uTop * (GAME_HEIGHT - PIPE_GAP - 100) :=
    mul_nonneg h0 (by rw [GAME_HEIGHT, PIPE_GAP]; norm_num)
  have hub : uTop * (GAME_HEIGHT - PIPE_GAP - 100) ≤ 350 := by
    calc uTop * (GAME_HEIGHT - PIPE_GAP - 100)
        ≤ 1 * (GAME_HEIGHT - PIPE_GAP - 100) :=
          mul_le_mul_of_nonneg_right h1.le
            (by rw [GAME_HEIGHT, PIPE_GAP]; norm_num)
      _ = 350 := by rw [GAME_HEIGHT, PIPE_GAP]; norm_num
  simp only [spawnPipe]
  split
  · refine ⟨?_, ?_, ?_, ?_, ?_⟩
    · intro g hgm
      rw [Option.mem_def, Option.some.injEq] at hgm
      rw [← hgm, PIPE_GAP]
      norm_num
    · intro t htm
      rw [Option.mem_def, Option.some.injEq] at htm
      rw [← htm, PIPE_GAP]
      norm_num
    · show (50 : ℚ) ≤ uTop * (GAME_HEIGHT - PIPE_GAP - 100) + 50
      linarith
    · show uTop * (GAME_HEIGHT - PIPE_GAP - 100) + 50 ≤ 450
      linarith
    · intro g hgm
      rw [Option.mem_def, Option.some.injEq] at hgm
      rw [← hgm]
      show uTop * (GAME_HEIGHT - PIPE_GAP - 100) + 50 ≤
        GAME_HEIGHT - PIPE_GAP - 50
      rw [GAME_HEIGHT, PIPE_GAP]
      rw [GAME_HEIGHT, PIPE_GAP] at hub
      linarith
  · refine ⟨by simp, by simp, ?_, ?_, by simp⟩
    · show (50 : ℚ) ≤ uTop * (GAME_HEIGHT - PIPE_GAP - 100) + 50
      linarith
    · show uTop * (GAME_HEIGHT - PIPE_GAP - 100) + 50 ≤ 450
      linarith

lemma movePipes_WF {c : Bool} {pvs : ℚ} {prs : ℕ → PipeRand}
    {l : List Pipe} (h : ∀ p ∈ l, PipeWF p) :
    ∀ i, ∀ q ∈ movePipes c pvs prs l i, PipeWF q := by
  induction l with
  | nil => intro i q hq; simp [movePipes] at hq
  | cons p rest ih =>
    intro i q hq
    simp only [movePipes, List.mem_cons] at hq
    rcases hq with rfl | hq
    · exact movePipe_WF _ _ _ (h p (by simp))
    · exact ih (fun r hr => h r (by simp [hr])) _ q hq

lemma markPassed_WF {p : Pipe} (hp : PipeWF p) :
    PipeWF (if p.x + PIPE_WIDTH < 50 ∧ p.passed = false
      then { p with passed := true } else p) := by
  obtain ⟨hg, ht, h50, h450, hgt⟩ := hp
  split
  · exact ⟨hg, ht, h50, h450, hgt⟩
  · exact ⟨hg, ht, h50, h450, hgt⟩

lemma nextGeneration_pipes (s : GameState) (gr : GenRand) :
    (nextGeneration s gr).pipes = [] ∨ nextGeneration s gr = s := by
  unfold nextGeneration
  split
  · exact Or.inr rfl
  · exact Or.inl rfl

lemma update_PipesWF (s : GameState) (ρ : TickRand)
    (hu0 : 0 ≤ ρ.spawnTop) (hu1 : ρ.spawnTop < 1) (hp : PipesWF s) :
    PipesWF (update s ρ) := by
  have h0 : ∀ p ∈ (if s.frameCount % PIPE_SPAWN_RATE = 0 then
      s.pipes ++ [spawnPipe s.challengeModeEnabled ρ.spawnTop ρ.spawnDir
        ρ.spawnDirT ρ.spawnGapT] else s.pipes), PipeWF p := by
    split
    · intro p hq
      rcases List.mem_append.mp hq with hq | hq
      · exact hp p hq
      · rcases List.mem_singleton.mp hq with rfl
        exact spawnPipe_WF _ hu0 hu1 _ _ _
    · exact hp
  have h2 : ∀ p ∈ (movePipes s.challengeModeEnabled s.pipeVerticalSpeed
      ρ.pipeR (if s.frameCount % PIPE_SPAWN_RATE = 0 then
        s.pipes ++ [spawnPipe s.challengeModeEnabled ρ.spawnTop ρ.spawnDir
          ρ.spawnDirT ρ.spawnGapT] else s.pipes) 0).filter
      (fun p => !decide (p.x + PIPE_WIDTH < 0)), PipeWF p := by
    intro p hq
    exact movePipes_WF h0 0 p (List.mem_of_mem_filter hq)
  have h3 : ∀ p ∈ ((movePipes s.challengeModeEnabled s.pipeVerticalSpeed
      ρ.pipeR (if s.frameCount % PIPE_SPAWN_RATE = 0 then
        s.pipes ++ [spawnPipe s.challengeModeEnabled ρ.spawnTop ρ.spawnDir
          ρ.spawnDirT ρ.spawnGapT] else s.pipes) 0).filter
      (fun p => !decide (p.x + PIPE_WIDTH < 0))).map (fun p =>
        if p.x + PIPE_WIDTH < 50 ∧ p.passed = false
        then { p with passed := true } else p), PipeWF p := by
    intro p hq
    rcases List.mem_map.mp hq with ⟨q, hq', rfl⟩
    exact markPassed_WF (h2 q hq')
  simp only [update]
  split
  · exact h3
  · rcases nextGeneration_pipes _ ρ.gen with h | h
    · intro q hq
      rw [h] at hq
      simp at hq
    · rw [h]
      exact h3

/-- **C6**: every obstacle, after every tick (challenge-mode gap changes and
vertical moves included), keeps its gap size — when defined — in
`[100, 250]`, its top height at least 50, and the full gap plus the 50px
bottom margin on screen whenever the gap is defined; the invariant also
survives `setChallengeMode`, `resetGame`, holds initially, and is preserved
over arbitrarily many ticks. -/
theorem C6_pipe_bounds :
    (∀ s ρ, 0 ≤ ρ.spawnTop → ρ.spawnTop < 1 →
      PipesWF s → PipesWF (update s ρ)) ∧
    (∀ s e sp, PipesWF s → PipesWF (setChallengeMode s e sp)) ∧
    (∀ s, PipesWF (resetGame s)) ∧
    (∀ mk, PipesWF (initGame mk)) ∧
    (∀ s ρs, (∀ k, 0 ≤ (ρs k).spawnTop ∧ (ρs k).spawnTop < 1) → PipesWF s →
      ∀ n, PipesWF (updates s ρs n)) ∧
    (∀ p, PipeWF p →
      (∀ g ∈ p.gapSize, 100 ≤ g ∧ g ≤ 250) ∧ 50 ≤ p.topHeight ∧
      ∀ g ∈ p.gapSize, p.topHeight ≤ GAME_HEIGHT - g - 50) := by
  refine ⟨fun s ρ h0 h1 hp => update_PipesWF s ρ h0 h1 hp,
    fun s e sp hp => ?_, fun s p hq => by simp [resetGame] at hq,
    fun mk p hq => by simp [initGame] at hq,
    fun s ρs hρ hp n => ?_, fun p h => ⟨h.1, h.2.2.1, h.2.2.2.2⟩⟩
  · intro p hq
    simp only [setChallengeMode] at hq
    split at hq
    · exact hp p hq
    · rcases List.mem_map.mp hq with ⟨q, hq', rfl⟩
      exact stripPipe_WF (hp q hq')
  · induction n with
    | zero => exact hp
    | succ n ih => exact update_PipesWF _ _ (hρ n).1 (hρ n).2 ih

/-- Witness for C6: one tick from a pipe-free state with draw `0`. -/
theorem C6_pipe_bounds_witness :
    (0 : ℚ) ≤ tr0.spawnTop ∧ tr0.spawnTop < 1 ∧ PipesWF stateFull ∧
    PipesWF (update stateFull tr0) :=
  ⟨by norm_num [tr0], by norm_num [tr0],
   fun p hp => by simp [stateFull] at hp,
   C6_pipe_bounds.1 stateFull tr0 (by norm_num [tr0]) (by norm_num [tr0])
     (fun p hp => by simp [stateFull] at hp)⟩

/-- **C4**: on any genome of the fixed 4-6-1 shape and any input, `predict`
returns exactly
`[sigmoid (Σ_j tanh(Σ_i input_i·Wih_i_j + bh_j)·Who_j_0 + bo_0)]`; the
output is strictly inside `(0,1)`, every hidden activation is strictly
inside `(-1,1)`, and no genome parameter is changed. -/
theorem C4_predict (n : NeuralNetwork) (input : List ℝ)
    (h1 : n.inputNodes = INPUT_NODES) (h2 : n.hiddenNodes = HIDDEN_NODES)
    (h3 : n.outputNodes = OUTPUT_NODES) :
    (predictS n input).2 =
      [sigmoid ((∑ j ∈ Finset.range 6,
          Real.tanh ((∑ i ∈ Finset.range 4,
              input.getD i 0 * ((n.weightsIH.getD i []).getD j 0 : ℝ)) +
            (n.biasH.getD j 0 : ℝ)) * ((n.weightsHO.getD j []).getD 0 0 : ℝ)) +
        (n.biasO.getD 0 0 : ℝ))] ∧
    (∀ y ∈ (predictS n input).2, 0 < y ∧ y < 1) ∧
    (∀ h ∈ (predictS n input).1.lastHidden, -1 < h ∧ h < 1) ∧
    (predictS n input).1.weightsIH = n.weightsIH ∧
    (predictS n input).1.weightsHO = n.weightsHO ∧
    (predictS n input).1.biasH = n.biasH ∧
    (predictS n input).1.biasO = n.biasO := by
  have hout : outputSum n ((List.range n.hiddenNodes).map fun i =>
      Real.tanh (hiddenSum n input i)) 0 =
      (∑ j ∈ Finset.range 6,
        Real.tanh ((∑ i ∈ Finset.range 4,
            input.getD i 0 * ((n.weightsIH.getD i []).getD j 0 : ℝ)) +
          (n.biasH.getD j 0 : ℝ)) * ((n.weightsHO.getD j []).getD 0 0 : ℝ)) +
      (n.biasO.getD 0 0 : ℝ) := by
    unfold outputSum
    rw [h2]
    simp only [HIDDEN_NODES]
    congr 1
    apply Finset.sum_congr rfl
    intro j hj
    rw [getD_map_range (Finset.mem_range.mp hj)]
    unfold hiddenSum
    rw [h1]
    simp only [INPUT_NODES]
  refine ⟨?_, ?_, ?_, rfl, rfl, rfl, rfl⟩
  · show ((List.range n.outputNodes).map fun i => sigmoid (outputSum n
      ((List.range n.hiddenNodes).map fun i => Real.tanh (hiddenSum n input i))
      i)) = _
    rw [h3]
    have hr1 : List.range OUTPUT_NODES = [0] := rfl
    rw [hr1]
    simp only [List.map_cons, List.map_nil]
    rw [hout]
  · intro y hy
    simp only [predictS] at hy
    rcases List.mem_map.mp hy with ⟨i, _, rfl⟩
    exact ⟨sigmoid_pos _, sigmoid_lt_one _⟩
  · intro t htm
    simp only [predictS] at htm
    rcases List.mem_map.mp htm with ⟨i, _, rfl⟩
    exact ⟨neg_one_lt_tanh _, tanh_lt_one _⟩

/-- Witness for C4 at the all-zero 4-6-1 network on the zero input. -/
theorem C4_predict_witness :
    net0.inputNodes = INPUT_NODES ∧ net0.hiddenNodes = HIDDEN_NODES ∧
    net0.outputNodes = OUTPUT_NODES ∧
    ((predictS net0 [0, 0, 0, 0]).2 =
      [sigmoid ((∑ j ∈ Finset.range 6,
          Real.tanh ((∑ i ∈ Finset.range 4,
              ([(0 : ℝ), 0, 0, 0]).getD i 0 *
                ((net0.weightsIH.getD i []).getD j 0 : ℝ)) +
            (net0.biasH.getD j 0 : ℝ)) *
          ((net0.weightsHO.getD j []).getD 0 0 : ℝ)) +
        (net0.biasO.getD 0 0 : ℝ))] ∧
    (∀ y ∈ (predictS net0 [0, 0, 0, 0]).2, 0 < y ∧ y < 1) ∧
    (∀ h ∈ (predictS net0 [0, 0, 0, 0]).1.lastHidden, -1 < h ∧ h < 1) ∧
    (predictS net0 [0, 0, 0, 0]).1.weightsIH = net0.weightsIH ∧
    (predictS net0 [0, 0, 0, 0]).1.weightsHO = net0.weightsHO ∧
    (predictS net0 [0, 0, 0, 0]).1.biasH = net0.biasH ∧
    (predictS net0 [0, 0, 0, 0]).1.biasO = net0.biasO) :=
  ⟨rfl, rfl, rfl, C4_predict net0 [0, 0, 0, 0] rfl rfl rfl⟩

lemma find?_eq_some_split {α : Type} {f : α → Bool} {l : List α} {a : α}
    (h : l.find? f = some a) :
    ∃ l1 l2, l = l1 ++ a :: l2 ∧ ∀ x ∈ l1, f x = false := by
  induction l with
  | nil => simp at h
  | cons b bs ih =>
    by_cases hb : f b
    · rw [List.find?_cons_of_pos _ hb, Option.some.injEq] at h
      subst h
      exact ⟨[], bs, rfl, by simp⟩
    · rw [List.find?_cons_of_neg _ (by simpa using hb)] at h
      rcases ih h with ⟨l1, l2, rfl, hall⟩
      refine ⟨b :: l1, l2, rfl, ?_⟩
      intro x hx
      rcases List.mem_cons.mp hx with rfl | hx
      · simpa using hb
      · exact hall x hx

/-- **C7**: the per-tick observation is exactly
`[y/600, x/800, (top + gap/2)/600, (v+10)/20]` for the earliest-spawned pipe
whose trailing edge is still ahead of the bird's x (50); without such a pipe
the second component is `1.0` and the third `0.5`. -/
theorem C7_observation (pipes : List Pipe) (y v : ℚ) :
    (closestOf pipes = none →
      (∀ p ∈ pipes, ¬ (50 < p.x + PIPE_WIDTH)) ∧
      obsOf (closestOf pipes) y v = [y / 600, 1, 1/2, (v + 10) / 20]) ∧
    (∀ p, closestOf pipes = some p →
      50 < p.x + PIPE_WIDTH ∧
      (∃ l1 l2, pipes = l1 ++ p :: l2 ∧
        ∀ q ∈ l1, ¬ (50 < q.x + PIPE_WIDTH)) ∧
      obsOf (closestOf pipes) y v =
        [y / 600, p.x / 800,
         (p.topHeight + jsOr p.gapSize 150 / 2) / 600, (v + 10) / 20]) := by
  constructor
  · intro hnone
    constructor
    · intro p hp
      have hfp := List.find?_eq_none.mp hnone p hp
      simpa using hfp
    · rw [hnone]
      show ([y / GAME_HEIGHT, GAME_WIDTH / GAME_WIDTH,
        GAME_HEIGHT / 2 / GAME_HEIGHT,
        (v + VELOCITY_LIMIT) / (VELOCITY_LIMIT * 2)] : List ℚ) = _
      rw [GAME_HEIGHT, GAME_WIDTH, VELOCITY_LIMIT]
      norm_num
  · intro p hp
    have hpred := List.find?_some hp
    refine ⟨by simpa using hpred, ?_, ?_⟩
    · rcases find?_eq_some_split hp with ⟨l1, l2, rfl, hall⟩
      exact ⟨l1, l2, rfl, fun q hq => by simpa using hall q hq⟩
    · rw [hp]
      show ([y / GAME_HEIGHT, p.x / GAME_WIDTH,
        (p.topHeight + jsOr p.gapSize PIPE_GAP / 2) / GAME_HEIGHT,
        (v + VELOCITY_LIMIT) / (VELOCITY_LIMIT * 2)] : List ℚ) = _
      rw [GAME_HEIGHT, GAME_WIDTH, VELOCITY_LIMIT, PIPE_GAP]
      norm_num

/-- Witness for C7 at a single concrete upcoming pipe. -/
theorem C7_observation_witness :
    closestOf [pipeC7] = some pipeC7 ∧
    (50 < pipeC7.x + PIPE_WIDTH ∧
     (∃ l1 l2, [pipeC7] = l1 ++ pipeC7 :: l2 ∧
       ∀ q ∈ l1, ¬ (50 < q.x + PIPE_WIDTH)) ∧
     obsOf (closestOf [pipeC7]) 300 0 =
       [300 / 600, pipeC7.x / 800,
        (pipeC7.topHeight + jsOr pipeC7.gapSize 150 / 2) / 600,
        (0 + 10) / 20]) :=
  ⟨by simp [closestOf, pipeC7, PIPE_WIDTH]; norm_num,
   (C7_observation [pipeC7] 300 0).2 pipeC7
     (by simp [closestOf, pipeC7, PIPE_WIDTH]; norm_num)⟩

/-- Counterexample to C8 as stated: on a challenge pipe whose
direction-change countdown expires, the re-randomized countdown with uniform
draw `1/7` is `60 + (1/7)·120 = 540/7`, which is not an integer — the timers
are re-randomized to arbitrary (typically non-integer) values, not
integers. -/
theorem C8_timer_integer_counterexample :
    (movePipe true 1 prC8 pipeC8).directionChangeTimer = some (540/7) ∧
    ∀ n : ℤ, (540/7 : ℚ) ≠ (n : ℚ) := by
  constructor
  · norm_num [movePipe, pipeC8, prC8, dirStep, gapEvent, gapTransition,
      jsOr, qsign, PIPE_GAP, PIPE_SPEED]
    simp
  · intro n hn
    have hlo : (77 : ℚ) < 540/7 := by norm_num
    have hhi : (540/7 : ℚ) < 78 := by norm_num
    rw [hn] at hlo hhi
    have i1 : (77 : ℤ) < n := by exact_mod_cast hlo
    have i2 : n < 78 := by exact_mod_cast hhi
    omega

/-- **C8 (amended)**: whenever the direction-change countdown expires it is
re-randomized to a value in the half-open interval `[60, 180)` (and the
direction sign flips); whenever the gap-change countdown expires it is
re-randomized to a value in `[30, 90)` and a new target gap is chosen as the
current gap plus or minus a magnitude in `[10, 30)`, clamped to `[100, 250]`;
the same ranges are used when the timers are first set at spawn. -/
theorem C8_timer_ranges (p : Pipe) (pvs : ℚ) (pr : PipeRand) (vv : ℚ)
    (hvv : p.verticalVelocity = some vv)
    (hd0 : 0 ≤ pr.dirT) (hd1 : pr.dirT < 1)
    (hm0 : 0 ≤ pr.mag) (hm1 : pr.mag < 1)
    (hg0 : 0 ≤ pr.gapT) (hg1 : pr.gapT < 1) :
    (∀ t, p.directionChangeTimer = some t → t - 1 ≤ 0 →
      (movePipe true pvs pr p).directionChangeTimer =
        some (60 + pr.dirT * 120) ∧
      60 ≤ 60 + pr.dirT * 120 ∧ 60 + pr.dirT * 120 < 180 ∧
      (movePipe true pvs pr p).verticalVelocity = some (vv * (-1))) ∧
    (∀ t, p.gapChangeTimer = some t → t - 1 ≤ 0 →
      (movePipe true pvs pr p).gapChangeTimer = some (30 + pr.gapT * 60) ∧
      30 ≤ 30 + pr.gapT * 60 ∧ 30 + pr.gapT * 60 < 90 ∧
      (movePipe true pvs pr p).targetGapSize =
        some (max 100 (min 250 (jsOr p.gapSize PIPE_GAP +
          (pr.mag * 20 + 10) * (if 1/2 < pr.sign then 1 else -1)))) ∧
      10 ≤ pr.mag * 20 + 10 ∧ pr.mag * 20 + 10 < 30) ∧
    (∀ uTop uDir uDirT uGapT : ℚ, 0 ≤ uDirT → uDirT < 1 →
      0 ≤ uGapT → uGapT < 1 →
      (spawnPipe true uTop uDir uDirT uGapT).directionChangeTimer =
        some (60 + uDirT * 120) ∧
      60 ≤ 60 + uDirT * 120 ∧ 60 + uDirT * 120 < 180 ∧
      (spawnPipe true uTop uDir uDirT uGapT).gapChangeTimer =
        some (30 + uGapT * 60) ∧
      30 ≤ 30 + uGapT * 60 ∧ 30 + uGapT * 60 < 90) := by
  have hdlo : (0 : ℚ) ≤ pr.dirT * 120 := mul_nonneg hd0 (by norm_num)
  have hdhi : pr.dirT * 120 < 120 := by
    calc pr.dirT * 120 < 1 * 120 :=
          mul_lt_mul_of_pos_right hd1 (by norm_num)
      _ = 120 := one_mul _
  have hglo : (0 : ℚ) ≤ pr.gapT * 60 := mul_nonneg hg0 (by norm_num)
  have hghi : pr.gapT * 60 < 60 := by
    calc pr.gapT * 60 < 1 * 60 := mul_lt_mul_of_pos_right hg1 (by norm_num)
      _ = 60 := one_mul _
  have hmlo : (0 : ℚ) ≤ pr.mag * 20 := mul_nonneg hm0 (by norm_num)
  have hmhi : pr.mag * 20 < 20 := by
    calc pr.mag * 20 < 1 * 20 := mul_lt_mul_of_pos_right hm1 (by norm_num)
      _ = 20 := one_mul _
  refine ⟨fun t htm hle => ?_, fun t htm hle => ?_,
    fun uTop uDir uDirT uGapT hu0 hu1 hw0 hw1 => ?_⟩
  · refine ⟨?_, by linarith, by linarith, ?_⟩
    · simp [movePipe, hvv, htm, dirStep, hle]
    · simp [movePipe, hvv, htm, dirStep, hle]
  · refine ⟨?_, by linarith, by linarith, ?_, by linarith, by linarith⟩
    · simp [movePipe, hvv, htm, gapEvent, hle]
    · simp [movePipe, hvv, htm, gapEvent, hle]
  · have h1 : (0 : ℚ) ≤ uDirT * 120 := mul_nonneg hu0 (by norm_num)
    have h2 : uDirT * 120 < 120 := by
      calc uDirT * 120 < 1 * 120 := mul_lt_mul_of_pos_right hu1 (by norm_num)
        _ = 120 := one_mul _
    have h3 : (0 : ℚ) ≤ uGapT * 60 := mul_nonneg hw0 (by norm_num)
    have h4 : uGapT * 60 < 60 := by
      calc uGapT * 60 < 1 * 60 := mul_lt_mul_of_pos_right hw1 (by norm_num)
        _ = 60 := one_mul _
    exact ⟨by simp [spawnPipe], by linarith, by linarith,
      by simp [spawnPipe], by linarith, by linarith⟩

/-- Witness for the amended C8 at a concrete expiring direction timer. -/
theorem C8_timer_ranges_witness :
    pipeC8.verticalVelocity = some 1 ∧
    (0 : ℚ) ≤ pr0.dirT ∧ pr0.dirT < 1 ∧ (0 : ℚ) ≤ pr0.mag ∧ pr0.mag < 1 ∧
    (0 : ℚ) ≤ pr0.gapT ∧ pr0.gapT < 1 ∧
    pipeC8.directionChangeTimer = some 1 ∧ (1 : ℚ) - 1 ≤ 0 ∧
    ((movePipe true 1 pr0 pipeC8).directionChangeTimer =
      some (60 + pr0.dirT * 120) ∧
     60 ≤ 60 + pr0.dirT * 120 ∧ 60 + pr0.dirT * 120 < 180 ∧
     (movePipe true 1 pr0 pipeC8).verticalVelocity = some (1 * (-1))) :=
  ⟨rfl, by norm_num [pr0], by norm_num [pr0], by norm_num [pr0],
   by norm_num [pr0], by norm_num [pr0], by norm_num [pr0], rfl, by norm_num,
   (C8_timer_ranges pipeC8 1 pr0 1 rfl (by norm_num [pr0]) (by norm_num [pr0])
     (by norm_num [pr0]) (by norm_num [pr0]) (by norm_num [pr0])
     (by norm_num [pr0])).1 1 rfl (by norm_num)⟩

end NeuroBird
